import Mathlib

/-!
Verification of the k8s-apply library (src/k8s-apply.js): a shallow
embedding of its transport layer (request/get/post/put/del) and of the
resource reconciler (getPluralPath/applyObject/delObject), followed by
theorems about the embedded definitions.

External collaborators of the source (node's https module, JSON.parse,
JSON.stringify, the service-account token, KUBERNETES_SERVICE_HOST) are
modelled as components of an environment record; everything else is
translated line by line from the source.
-/

/-- JSON values as produced by node's JSON.parse. -/
inductive Json where
  | null
  | bool (b : Bool)
  | num (n : Int)
  | str (s : String)
  | arr (elems : List Json)
  | obj (fields : List (String × Json))

/-- The ways an operation of the library can reject its promise:
a transport error (req.on "error"), a JSON.parse failure on the response
body, a JavaScript TypeError raised by a member access on null/undefined,
and the explicit `throw new Error("k8s-apply cannot get object: ...")`
of applyObject, which carries the read's status code and parsed body. -/
inductive JsError where
  | transport (msg : String)
  | parse (body : String)
  | typeError (msg : String)
  | applyGetError (statusCode : Nat) (data : Json)

/-- The `{ statusCode, data }` record fulfilled by `request`. -/
structure HttpResult where
  statusCode : Nat
  data : Json

/-- A JavaScript headers object: string keys to string values, in
insertion order (Content-Length, a number in the source, is stored via
its decimal string). -/
abbrev Headers := List (String × String)

/-- JavaScript `key in target` on a headers object. -/
def hdrHas (h : Headers) (k : String) : Bool := (h.lookup k).isSome

/-- The source's `defaults( target, defaults )` helper acting on a headers
object: every key of the defaults object that is absent from the target is
written into the target (insertion appends). -/
def hdrDefaults (target defs : Headers) : Headers :=
  defs.foldl (fun t kv => if hdrHas t kv.1 then t else t ++ [kv]) target

/-- An options object as consumed by `request`: the six dynamic keys the
source ever reads or writes, each `none` when the key is absent. -/
structure Options where
  hostname : Option String := none
  port : Option Nat := none
  path : Option String := none
  method : Option String := none
  headers : Option Headers := none
  postData : Option String := none
  deriving DecidableEq

/-- One key of the `defaults` helper: keep the target's value when the key
is present, otherwise take the default (which may itself be absent). -/
def orDefault {α : Type} (t d : Option α) : Option α :=
  match t with
  | some v => some v
  | none => d

/-- The source's `defaults( target, defaults )` helper acting key-wise on an
options object. -/
def optDefaults (target defs : Options) : Options where
  hostname := orDefault target.hostname defs.hostname
  port := orDefault target.port defs.port
  path := orDefault target.path defs.path
  method := orDefault target.method defs.method
  headers := orDefault target.headers defs.headers
  postData := orDefault target.postData defs.postData

/-- The metadata record of a resource object. `nspace` stands for the
source's `metadata.namespace` (a keyword in Lean); `resourceVersion` is
`none` when the property is absent or undefined; `restMeta` carries every
other metadata property opaquely. -/
structure Meta where
  nspace : String
  name : String
  resourceVersion : Option Json := none
  restMeta : List (String × Json) := []

/-- A resource object: the fields the reconciler interprets, plus the rest
of the caller's payload, carried opaquely. -/
structure ResourceObject where
  apiVersion : String
  kind : String
  metadata : Meta
  rest : List (String × Json) := []

/-- What the wire returns for one https request: a connection-level error
(rejecting the promise via req.on "error"), or a status code with the raw
response body accumulated from the data events. -/
inductive WireResponse where
  | netError (msg : String)
  | reply (statusCode : Nat) (body : String)
  deriving DecidableEq

/-- The https request actually issued: the fields of the options object
that node's https.request consumes, after defaulting. -/
structure HttpRequest where
  hostname : String
  port : Nat
  method : String
  path : String
  headers : Headers
  postData : Option String
  deriving DecidableEq

/-- The environment of external collaborators: the cluster host from
KUBERNETES_SERVICE_HOST, the service-account token, the wire (node https),
JSON.parse (none on a parse failure, which the source turns into a
rejection), and JSON.stringify on resource objects. -/
structure Env where
  serviceHost : String
  token : String
  transport : HttpRequest → WireResponse
  parseJson : String → Option Json
  stringify : ResourceObject → String

/-- JavaScript member access `v.k` on a parsed-JSON value: throws a
TypeError on null, yields the field (or undefined, modelled `none`) on an
object, and undefined on any other value. -/
def jsMember : Json → String → Except JsError (Option Json)
  | .null, k => .error (.typeError ("Cannot read properties of null (reading " ++ k ++ ")"))
  | .obj fields, k => .ok (fields.lookup k)
  | _, _ => .ok none

/-- JavaScript evaluation of `getObject.metadata.resourceVersion` as on the
conflict path of applyObject: the first access follows `jsMember`; a second
access on undefined throws a TypeError. -/
def jsMetaResourceVersion (getObject : Json) : Except JsError (Option Json) :=
  match jsMember getObject "metadata" with
  | .error e => .error e
  | .ok none => .error (.typeError "Cannot read properties of undefined (reading resourceVersion)")
  | .ok (some m) => jsMember m "resourceVersion"

/-- JavaScript `kind.toLowerCase()` (ASCII case mapping). -/
def jsToLowerCase (s : String) : String := String.mk (s.toList.map Char.toLower)

/-- JavaScript `s.indexOf(c)`: the index of the first occurrence, or -1. -/
def jsIndexOf (s : String) (c : Char) : Int :=
  match s.toList.findIdx? (fun a => a = c) with
  | some i => (i : Int)
  | none => -1

namespace K8sApi

/-- The outcome of one call into `request` or a wrapper: the caller's
options object after the call (the source mutates it in place), the https
request that was issued, and the settled promise. -/
structure ReqOutcome where
  finalOptions : Options
  sent : HttpRequest
  result : Except JsError HttpResult

/-- The two `defaults` calls at the top of `request`: fill in hostname,
port, path, method and headers when absent, then fill the Authorization
bearer header into the (possibly caller-supplied) headers object. -/
def buildOptions (env : Env) (path : String) (options : Option Options) : Options :=
  let opts := optDefaults (options.getD {})
    { hostname := some env.serviceHost
      port := some 443
      path := some path
      method := some "GET"
      headers := some ([] : Headers)
      postData := none }
  { opts with
    headers := some (hdrDefaults (opts.headers.getD [])
      [("Authorization", "Bearer " ++ env.token)]) }

/-- The https request built from the defaulted options (after the
`defaults` calls every consumed field is present; the getD fallbacks are
never reached). -/
def buildRequest (env : Env) (path : String) (options : Option Options) : HttpRequest :=
  let opts := buildOptions env path options
  { hostname := opts.hostname.getD ""
    port := opts.port.getD 0
    method := opts.method.getD ""
    path := opts.path.getD ""
    headers := opts.headers.getD []
    postData := opts.postData }

/-- The source's `request( path, options )`: default the options and
headers, issue the https request, and either reject with a transport
error, reject when JSON.parse fails on the body, or fulfill with
`{ statusCode, data }`. -/
def request (env : Env) (path : String) (options : Option Options) : ReqOutcome :=
  { finalOptions := buildOptions env path options
    sent := buildRequest env path options
    result :=
      match env.transport (buildRequest env path options) with
      | .netError m => .error (.transport m)
      | .reply code body =>
        match env.parseJson body with
        | none => .error (.parse body)
        | some j => .ok { statusCode := code, data := j } }

/-- The source's `get( path, options )`. -/
def get (env : Env) (path : String) (options : Option Options) : ReqOutcome :=
  request env path (some (optDefaults (options.getD {}) { method := some "GET" }))

/-- The source's `post( path, object, options )`: serialize the object,
then default method POST, the Content-Type and Content-Length headers
(Buffer.byteLength of the body) and the body itself. -/
def post (env : Env) (path : String) (object : ResourceObject) (options : Option Options) :
    ReqOutcome :=
  let body := env.stringify object
  request env path (some (optDefaults (options.getD {})
    { method := some "POST"
      headers := some [("Content-Type", "application/json"),
                       ("Content-Length", toString body.utf8ByteSize)]
      postData := some body }))

/-- The source's `put( path, object, options )`: delegates to `post` with a
fresh `{ method: "PUT" }` options object; the caller's options argument is
not forwarded. -/
def put (env : Env) (path : String) (object : ResourceObject) (_options : Option Options) :
    ReqOutcome :=
  post env path object (some { method := some "PUT" })

/-- The source's `del( path, options )`: delegates to `request` with a
fresh `{ method: "DELETE" }` options object; the caller's options argument
is not forwarded. -/
def del (env : Env) (path : String) (_options : Option Options) : ReqOutcome :=
  request env path (some { method := some "DELETE" })

/-- The source's `getPluralPath( object )`. -/
def getPluralPath (object : ResourceObject) : String :=
  "/api" ++ (if jsIndexOf object.apiVersion '/' > 0 then "s" else "") ++ "/" ++
    object.apiVersion ++ "/namespaces/" ++ object.metadata.nspace ++ "/" ++
    jsToLowerCase object.kind ++ "s"

/-- The outcome of applyObject or delObject: the caller's object after the
call (the source mutates it in place), the https requests issued in order,
and the settled promise. -/
structure ApplyOutcome where
  object : ResourceObject
  requests : List HttpRequest
  result : Except JsError HttpResult

/-- The source's `applyObject( object )`: attempt the create; on any status
other than 409 return that result; on 409 read the live object, throw when
the read's status is not 200, copy its metadata.resourceVersion into the
object, and return the result of the update. -/
def applyObject (env : Env) (object : ResourceObject) : ApplyOutcome :=
  let path := getPluralPath object
  let o1 := post env path object none
  match o1.result with
  | .error e => { object := object, requests := [o1.sent], result := .error e }
  | .ok res =>
    if res.statusCode ≠ 409 then
      { object := object, requests := [o1.sent], result := .ok res }
    else
      let path2 := path ++ "/" ++ object.metadata.name
      let o2 := get env path2 none
      match o2.result with
      | .error e => { object := object, requests := [o1.sent, o2.sent], result := .error e }
      | .ok g =>
        if g.statusCode ≠ 200 then
          { object := object, requests := [o1.sent, o2.sent],
            result := .error (.applyGetError g.statusCode g.data) }
        else
          match jsMetaResourceVersion g.data with
          | .error e =>
            { object := object, requests := [o1.sent, o2.sent], result := .error e }
          | .ok rv =>
            let object2 :=
              { object with metadata := { object.metadata with resourceVersion := rv } }
            let o3 := put env path2 object2 none
            { object := object2, requests := [o1.sent, o2.sent, o3.sent], result := o3.result }

/-- The source's `delObject( object )`: one DELETE of the object's
plural path extended with its name. -/
def delObject (env : Env) (object : ResourceObject) : ApplyOutcome :=
  let path := getPluralPath object ++ "/" ++ object.metadata.name
  let o1 := del env path none
  { object := object, requests := [o1.sent], result := o1.result }

end K8sApi

open K8sApi

/-! Concrete fixtures: a sample resource object, a JSON decoder for the
bodies the demo servers answer with, and one environment per scenario. -/

/-- The concrete object of the spec scenario:
apiVersion v1, kind Service, namespace ns1, name svc-a. -/
def demoObj : ResourceObject :=
  { apiVersion := "v1", kind := "Service", metadata := { nspace := "ns1", name := "svc-a" } }

/-- Parsed body answered by the demo servers on a create conflict. -/
def conflictJson : Json := .obj [("reason", .str "AlreadyExists")]

/-- Parsed body of the live object, carrying metadata.resourceVersion 42. -/
def liveJson : Json := .obj [("metadata", .obj [("resourceVersion", .str "42")])]

/-- Parsed body answered on a denied read. -/
def forbiddenJson : Json := .obj [("message", .str "forbidden")]

/-- JSON.parse on the handful of bodies the demo servers answer with;
"garbage" (and anything unknown) fails to parse. -/
def demoParse : String → Option Json
  | "{}" => some (.obj [])
  | "null" => some .null
  | "conflict" => some conflictJson
  | "live" => some liveJson
  | "forbidden" => some forbiddenJson
  | "done" => some (.obj [("status", .str "ok")])
  | _ => none

/-- A server on which the object already exists: create conflicts, the read
succeeds with resourceVersion 42, the replace succeeds. -/
def demoEnv : Env :=
  { serviceHost := "10.0.0.1", token := "tok"
    transport := fun r =>
      if r.method = "POST" then .reply 409 "conflict"
      else if r.method = "GET" then .reply 200 "live"
      else if r.method = "PUT" then .reply 200 "done"
      else .reply 200 "{}"
    parseJson := demoParse
    stringify := fun _ => "{}" }

/-- A server on which the create succeeds with 201. -/
def envCreate : Env :=
  { demoEnv with transport := fun _ => .reply 201 "{}" }

/-- A server on which the create conflicts and the reconciliation read is
denied with 403. -/
def envGetFail : Env :=
  { demoEnv with transport := fun r =>
      if r.method = "POST" then .reply 409 "conflict" else .reply 403 "forbidden" }

/-- A server on which the create conflicts and the reconciliation read
returns 200 with the JSON body null. -/
def envNullRead : Env :=
  { demoEnv with transport := fun r =>
      if r.method = "POST" then .reply 409 "conflict" else .reply 200 "null" }

/-- A server whose responses have status 200 but an unparseable body. -/
def envParse : Env :=
  { demoEnv with transport := fun _ => .reply 200 "garbage" }

/-- A server on which the create conflicts and every further connection
fails at the transport level. -/
def envGetDown : Env :=
  { demoEnv with transport := fun r =>
      if r.method = "POST" then .reply 409 "conflict" else .netError "ECONNRESET" }

/-- A server on which the delete answers 404. -/
def envDelete404 : Env :=
  { demoEnv with transport := fun r =>
      if r.method = "DELETE" then .reply 404 "{}" else .reply 200 "{}" }

/-- A caller-supplied options object carrying only a custom header. -/
def optsX : Options := { headers := some [("X-Custom", "1")] }

/-- A caller-supplied options object with every defaulted key present and an
Authorization header of its own. -/
def fullOpts : Options :=
  { hostname := some "h", port := some 1, path := some "/q", method := some "HEAD",
    headers := some [("Authorization", "Bearer custom")], postData := some "B" }

/-- A resource object whose apiVersion starts with the separator character. -/
def slashObj : ResourceObject :=
  { apiVersion := "/v1", kind := "Pod", metadata := { nspace := "ns", name := "p" } }

/-! Helper lemmas shared by the claim theorems. -/

/-- The request issued through `put` carries method PUT. -/
theorem put_sent_method (env : Env) (p : String) (o : ResourceObject) :
    (put env p o none).sent.method = "PUT" := rfl

/-- The headers defaulting pass with the single Authorization entry appends
it exactly when the key is absent. -/
theorem hdrDefaults_single (t : Headers) (k v : String) :
    hdrDefaults t [(k, v)] = if hdrHas t k then t else t ++ [(k, v)] := rfl

/-! Claim theorems. -/

/-- C1: the claim says that when the create POST returns 409 and the
reconciliation GET returns a status other than 200, the result of the GET
is returned as the final, non-thrown result of applyObject. The code
instead throws an Error carrying the status code and body. Evaluated here
at a run where the create conflicts (409) and the read is denied (403):
no PUT is issued and applyObject rejects with that Error instead of
returning the result of the GET. -/
theorem applyObject_read_failure_rejects :
    (post envGetFail (getPluralPath demoObj) demoObj none).result = .ok ⟨409, conflictJson⟩ ∧
    (K8sApi.get envGetFail (getPluralPath demoObj ++ "/" ++ demoObj.metadata.name)
      none).result = .ok ⟨403, forbiddenJson⟩ ∧
    (applyObject envGetFail demoObj).requests.map (fun q => q.method) = ["POST", "GET"] ∧
    (applyObject envGetFail demoObj).result = .error (.applyGetError 403 forbiddenJson) :=
  ⟨rfl, rfl, rfl, rfl⟩

/-- C2 counterexample: for the object with apiVersion "/v1" the apiVersion
contains the separator, yet getPluralPath produces the core-group prefix
"/api/", not "/apis/": the source tests indexOf > 0, so a leading
separator does not count. -/
theorem getPluralPath_slash_counterexample :
    "/v1".toList.contains '/' = true ∧
    getPluralPath slashObj = "/api//v1/namespaces/ns/pods" ∧
    getPluralPath slashObj ≠ "/apis//v1/namespaces/ns/pods" :=
  ⟨rfl, rfl, by decide⟩

/-- C2 amended: getPluralPath equals "/apis/" ++ apiVersion ++
"/namespaces/" ++ namespace ++ "/" ++ lowercase(kind) ++ "s" exactly when
the first occurrence of the separator in apiVersion is at an index greater
than zero, and the same string with prefix "/api/" otherwise (no separator
at all, or a separator only at the start); the final path segment is always
the lowercased kind with one trailing appended s. -/
theorem getPluralPath_shape (o : ResourceObject) :
    getPluralPath o =
      (if jsIndexOf o.apiVersion '/' > 0 then "/apis/" else "/api/") ++
        o.apiVersion ++ "/namespaces/" ++ o.metadata.nspace ++ "/" ++
        jsToLowerCase o.kind ++ "s" := by
  by_cases h : jsIndexOf o.apiVersion '/' > 0 <;>
    simp only [getPluralPath, h, if_true, if_false] <;> rfl

/-- C3 counterexample: a run in which the create POST returns 409 and the
reconciliation GET returns 200 — with a body that parses to JSON null. The
claim asserts every such run issues an update PUT; the code instead throws
a TypeError while reading metadata of null, and no PUT is issued. -/
theorem applyObject_conflict_null_read_counterexample :
    (post envNullRead (getPluralPath demoObj) demoObj none).result = .ok ⟨409, conflictJson⟩ ∧
    (K8sApi.get envNullRead (getPluralPath demoObj ++ "/" ++ demoObj.metadata.name)
      none).result = .ok ⟨200, .null⟩ ∧
    (applyObject envNullRead demoObj).requests.map (fun q => q.method) = ["POST", "GET"] ∧
    (applyObject envNullRead demoObj).result =
      .error (.typeError "Cannot read properties of null (reading metadata)") :=
  ⟨rfl, rfl, rfl, rfl⟩

/-- C3 amended: in every applyObject run where the create POST returns 409,
the reconciliation GET returns 200, and reading metadata.resourceVersion
from the parsed GET body does not throw, exactly one create, one read and
one update request are issued in that order; the object serialized into
the PUT body carries exactly the resourceVersion returned by the read; and
the result of the PUT is the final result of applyObject. -/
theorem applyObject_conflict_update (env : Env) (o : ResourceObject) (d g : Json)
    (rv : Option Json)
    (hpost : (post env (getPluralPath o) o none).result = .ok ⟨409, d⟩)
    (hget : (K8sApi.get env (getPluralPath o ++ "/" ++ o.metadata.name) none).result =
      .ok ⟨200, g⟩)
    (hrv : jsMetaResourceVersion g = .ok rv) :
    applyObject env o =
      { object := { o with metadata := { o.metadata with resourceVersion := rv } }
        requests := [(post env (getPluralPath o) o none).sent,
          (K8sApi.get env (getPluralPath o ++ "/" ++ o.metadata.name) none).sent,
          (put env (getPluralPath o ++ "/" ++ o.metadata.name)
            { o with metadata := { o.metadata with resourceVersion := rv } } none).sent]
        result := (put env (getPluralPath o ++ "/" ++ o.metadata.name)
            { o with metadata := { o.metadata with resourceVersion := rv } } none).result } := by
  simp only [applyObject, hpost, hget, hrv]
  simp

/-- C3 witness: the amended theorem applied to the concrete conflict
server, where the read returns resourceVersion 42: three requests POST,
GET, PUT are issued, the caller object now carries resourceVersion 42,
and the final result is the PUT result. -/
theorem applyObject_conflict_update_witness :
    (applyObject demoEnv demoObj).requests.map (fun q => q.method) = ["POST", "GET", "PUT"] ∧
    (applyObject demoEnv demoObj).object.metadata.resourceVersion = some (.str "42") ∧
    (applyObject demoEnv demoObj).result = .ok ⟨200, .obj [("status", .str "ok")]⟩ := by
  have h := applyObject_conflict_update demoEnv demoObj conflictJson liveJson
    (some (.str "42")) rfl rfl rfl
  rw [h]
  exact ⟨rfl, rfl, rfl⟩

/-- C4: when the create POST returns any status other than 409, that create
result is returned unchanged as the final result of applyObject, and the
single POST is the only request issued. -/
theorem applyObject_create_terminal (env : Env) (o : ResourceObject) (s : Nat) (d : Json)
    (hs : s ≠ 409)
    (hpost : (post env (getPluralPath o) o none).result = .ok ⟨s, d⟩) :
    applyObject env o =
      { object := o, requests := [(post env (getPluralPath o) o none).sent],
        result := .ok ⟨s, d⟩ } ∧
    (post env (getPluralPath o) o none).sent.method = "POST" := by
  constructor
  · simp only [applyObject, hpost]
    simp [hs]
  · rfl

/-- C4 witness: against the server answering 201, applyObject issues one
POST and returns the create result 201. -/
theorem applyObject_create_terminal_witness :
    (applyObject envCreate demoObj).requests.map (fun q => q.method) = ["POST"] ∧
    (applyObject envCreate demoObj).result = .ok ⟨201, .obj []⟩ := by
  have h := (applyObject_create_terminal envCreate demoObj 201 (.obj [])
    (by decide) rfl).1
  rw [h]
  exact ⟨rfl, rfl⟩

/-- C5: in every applyObject run that aborts because the reconciliation GET
returned a status other than 200, the caller resource object is unchanged;
in particular metadata.resourceVersion is not written. -/
theorem applyObject_read_failure_preserves_object (env : Env) (o : ResourceObject)
    (d g : Json) (s : Nat) (hs : s ≠ 200)
    (hpost : (post env (getPluralPath o) o none).result = .ok ⟨409, d⟩)
    (hget : (K8sApi.get env (getPluralPath o ++ "/" ++ o.metadata.name) none).result =
      .ok ⟨s, g⟩) :
    (applyObject env o).object = o := by
  simp only [applyObject, hpost, hget]
  simp [hs]

/-- C5 witness: on the conflict-then-403 server the caller object comes back
exactly as it went in. -/
theorem applyObject_read_failure_preserves_object_witness :
    (applyObject envGetFail demoObj).object = demoObj :=
  applyObject_read_failure_preserves_object envGetFail demoObj
    conflictJson forbiddenJson 403 (by decide) rfl rfl

/-- C6: a response whose body JSON.parse cannot decode makes the request
operation reject with a parse error, a constructor distinct from every
status result; and an error result of a step of applyObject (transport or
parse alike) aborts the sequence: after a failed create only the one POST
was issued, and after a conflict whose read fails no PUT is issued — in
each case the error is the final, not-swallowed outcome. -/
theorem request_parse_failure_aborts (env : Env) (path : String) (options : Option Options)
    (o : ResourceObject) (code : Nat) (body : String) (e : JsError) :
    (env.transport (request env path options).sent = .reply code body →
      env.parseJson body = none →
      (request env path options).result = .error (.parse body)) ∧
    ((post env (getPluralPath o) o none).result = .error e →
      applyObject env o =
        { object := o, requests := [(post env (getPluralPath o) o none).sent],
          result := .error e }) ∧
    (∀ d : Json, (post env (getPluralPath o) o none).result = .ok ⟨409, d⟩ →
      (K8sApi.get env (getPluralPath o ++ "/" ++ o.metadata.name) none).result = .error e →
      applyObject env o =
        { object := o
          requests := [(post env (getPluralPath o) o none).sent,
            (K8sApi.get env (getPluralPath o ++ "/" ++ o.metadata.name) none).sent]
          result := .error e }) := by
  refine ⟨?_, ?_, ?_⟩
  · intro h1 h2
    simp only [request] at h1 ⊢
    rw [h1]
    dsimp only
    rw [h2]
  · intro h
    simp only [applyObject, h]
  · intro d h1 h2
    simp only [applyObject, h1, h2]
    simp

/-- C6 witness: on the server answering the unparseable body "garbage" the
request rejects with the parse error and applyObject stops after its one
POST; on the server whose connections die after the create conflict,
applyObject stops after POST and GET with the transport error. -/
theorem request_parse_failure_aborts_witness :
    (request envParse "/x" none).result = .error (.parse "garbage") ∧
    (applyObject envParse demoObj).result = .error (.parse "garbage") ∧
    (applyObject envParse demoObj).requests.map (fun q => q.method) = ["POST"] ∧
    (applyObject envGetDown demoObj).result = .error (.transport "ECONNRESET") ∧
    (applyObject envGetDown demoObj).requests.map (fun q => q.method) = ["POST", "GET"] := by
  refine ⟨?_, ?_, ?_, ?_, ?_⟩
  · exact (request_parse_failure_aborts envParse "/x" none demoObj 200 "garbage"
      (.parse "garbage")).1 rfl rfl
  · have h := (request_parse_failure_aborts envParse "/x" none demoObj 200 "garbage"
      (.parse "garbage")).2.1 rfl
    rw [h]
  · have h := (request_parse_failure_aborts envParse "/x" none demoObj 200 "garbage"
      (.parse "garbage")).2.1 rfl
    rw [h]
    rfl
  · have h := (request_parse_failure_aborts envGetDown "/x" none demoObj 0 ""
      (.transport "ECONNRESET")).2.2 conflictJson rfl rfl
    rw [h]
  · have h := (request_parse_failure_aborts envGetDown "/x" none demoObj 0 ""
      (.transport "ECONNRESET")).2.2 conflictJson rfl rfl
    rw [h]
    rfl

/-- C7 counterexample: with a caller options object carrying a custom
header, the request issued by put is not the request issued by post on
those same options with only the method changed to PUT — put drops the
caller options, so the header sets differ. -/
theorem put_options_counterexample :
    (put demoEnv "/p" demoObj (some optsX)).sent ≠
      { (post demoEnv "/p" demoObj (some optsX)).sent with method := "PUT" } ∧
    (put demoEnv "/p" demoObj (some optsX)).sent.headers =
      [("Content-Type", "application/json"), ("Content-Length", "2"),
        ("Authorization", "Bearer tok")] ∧
    (post demoEnv "/p" demoObj (some optsX)).sent.headers =
      [("X-Custom", "1"), ("Authorization", "Bearer tok")] :=
  ⟨by decide, rfl, rfl⟩

/-- C7 amended: put ignores its caller-supplied options entirely; for every
environment, path, object and options, the request put issues equals the
request post issues with no caller options, except that the method is PUT —
in particular the body is the JSON-serialized object, Content-Type is
application/json and Content-Length is the byte length of the body. -/
theorem put_matches_post_with_put_method (env : Env) (path : String)
    (object : ResourceObject) (options : Option Options) :
    (put env path object options).sent =
      { (post env path object none).sent with method := "PUT" } ∧
    (put env path object options).sent.postData = some (env.stringify object) ∧
    ((put env path object options).sent.headers).lookup "Content-Type" =
      some "application/json" ∧
    ((put env path object options).sent.headers).lookup "Content-Length" =
      some (toString (env.stringify object).utf8ByteSize) :=
  ⟨rfl, rfl, rfl, rfl⟩

/-- C8: delObject issues exactly one request, a DELETE of
pluralPath(object) extended with the object name, with no prior existence
probe, and whatever status the server answers — 404 included — becomes the
ordinary statusCode-and-data result. -/
theorem delObject_single_delete (env : Env) (o : ResourceObject) :
    delObject env o =
      { object := o
        requests := [(del env (getPluralPath o ++ "/" ++ o.metadata.name) none).sent]
        result := (del env (getPluralPath o ++ "/" ++ o.metadata.name) none).result } ∧
    (del env (getPluralPath o ++ "/" ++ o.metadata.name) none).sent.method = "DELETE" ∧
    (del env (getPluralPath o ++ "/" ++ o.metadata.name) none).sent.path =
      getPluralPath o ++ "/" ++ o.metadata.name ∧
    (∀ (code : Nat) (body : String) (j : Json),
      env.transport (del env (getPluralPath o ++ "/" ++ o.metadata.name) none).sent =
        .reply code body →
      env.parseJson body = some j →
      (delObject env o).result = .ok ⟨code, j⟩) := by
  refine ⟨rfl, rfl, rfl, ?_⟩
  intro code body j h1 h2
  simp only [delObject, del, request] at h1 ⊢
  rw [h1]
  dsimp only
  rw [h2]

/-- C8 witness: against the server answering 404 on DELETE, delObject
issues the single DELETE of the name path and returns 404 as an ordinary
result. -/
theorem delObject_single_delete_witness :
    (delObject envDelete404 demoObj).result = .ok ⟨404, .obj []⟩ ∧
    (delObject envDelete404 demoObj).requests.map (fun q => q.path) =
      ["/api/v1/namespaces/ns1/services/svc-a"] := by
  refine ⟨?_, rfl⟩
  exact (delObject_single_delete envDelete404 demoObj).2.2.2 404 "{}" (.obj []) rfl rfl

/-- C9: over every run of applyObject and delObject, every field of the
caller object other than metadata.resourceVersion is unchanged; and either
the object is entirely unchanged, or the run ends in a PUT request and the
only changed field is metadata.resourceVersion. -/
theorem reconciler_frame (env : Env) (o : ResourceObject) :
    ((applyObject env o).object.apiVersion = o.apiVersion ∧
     (applyObject env o).object.kind = o.kind ∧
     (applyObject env o).object.rest = o.rest ∧
     (applyObject env o).object.metadata.nspace = o.metadata.nspace ∧
     (applyObject env o).object.metadata.name = o.metadata.name ∧
     (applyObject env o).object.metadata.restMeta = o.metadata.restMeta) ∧
    ((applyObject env o).object = o ∨
      (((applyObject env o).requests.map (fun q => q.method)).getLast? = some "PUT" ∧
        (applyObject env o).object =
          { o with metadata := { o.metadata with
              resourceVersion := (applyObject env o).object.metadata.resourceVersion } })) ∧
    (delObject env o).object = o := by
  unfold applyObject
  cases hp : (post env (getPluralPath o) o none).result with
  | error e => simp [hp, delObject]
  | ok res =>
    simp only [hp]
    by_cases h409 : res.statusCode = 409
    · simp only [h409]
      cases hg : (K8sApi.get env (getPluralPath o ++ "/" ++ o.metadata.name) none).result with
      | error e => simp [delObject]
      | ok g =>
        by_cases h200 : g.statusCode = 200
        · simp only [h200]
          cases hr : jsMetaResourceVersion g.data with
          | error e => simp [delObject]
          | ok rv => simp [delObject, put_sent_method]
        · simp [h200, delObject]
    · simp [h409, delObject]

/-- C10 counterexample: the claim quantifies over every caller options
object and lists postData among the keys request and get write. On a fully
populated options object the call leaves the object unchanged — not
observably different — and get on an empty options object never writes
postData. -/
theorem options_defaulting_counterexample :
    (request demoEnv "/p" (some fullOpts)).finalOptions = fullOpts ∧
    (K8sApi.get demoEnv "/p" (some ({} : Options))).finalOptions.postData = none :=
  ⟨by decide, rfl⟩

/-- C10 amended: request mutates the caller options in place exactly at its
missing keys — hostname, port, path and method get their defaults when
absent and keep their values when present, the Authorization bearer header
is appended to the caller headers object exactly when that key is absent,
and postData is never touched by request or get (only post fills it, with
the serialized body, when absent) — so the options object is observably
different exactly when one of those keys or the header was missing. -/
theorem request_options_defaulting (env : Env) (path : String) (opts : Options)
    (object : ResourceObject) :
    (request env path (some opts)).finalOptions.hostname =
      some (opts.hostname.getD env.serviceHost) ∧
    (request env path (some opts)).finalOptions.port = some (opts.port.getD 443) ∧
    (request env path (some opts)).finalOptions.path = some (opts.path.getD path) ∧
    (request env path (some opts)).finalOptions.method = some (opts.method.getD "GET") ∧
    (request env path (some opts)).finalOptions.headers =
      some (if hdrHas (opts.headers.getD []) "Authorization" then opts.headers.getD []
        else opts.headers.getD [] ++ [("Authorization", "Bearer " ++ env.token)]) ∧
    (request env path (some opts)).finalOptions.postData = opts.postData ∧
    (K8sApi.get env path (some opts)).finalOptions.postData = opts.postData ∧
    (post env path object (some opts)).finalOptions.postData =
      some (opts.postData.getD (env.stringify object)) := by
  obtain ⟨ho, hp, hpa, hm, hh, hpd⟩ := opts
  cases ho <;> cases hp <;> cases hpa <;> cases hm <;> cases hh <;> cases hpd <;>
    simp [request, K8sApi.get, post, buildOptions, optDefaults, orDefault,
      hdrDefaults_single, Option.getD]
